import Mathlib

/-!
# A shallow embedding of the RNES NES emulator core

This file embeds, in Lean, the parts of the emulator's Rust source that the
verified properties below are about: the cartridge/mapper layer
(`cartridge.rs`), the PPU register file and memory map (`ppu.rs`), the bus
decoder with OAM DMA (`bus.rs`), the controller latch (`input.rs`), and the
CPU helpers for branches and stack pulls (`cpu.rs`).

Modelling conventions:
* machine integers (`u8`, `u16`, `i32`) become `Nat` (or `Int` for cycle
  counts), with an explicit `% 2^w` or `&&& mask` exactly where the Rust
  code wraps or where a narrowing type forces it;
* byte memories (`Vec<u8>`, fixed arrays) become total functions
  `Nat → Nat`; out-of-range indexing, which panics in Rust, is therefore
  not representable in the runtime model — the ROM-loading model, where a
  panic is the behaviour of interest, instead uses `List Nat` with explicit
  bounds checks returning `none` for a panic;
* `&mut self` methods become state-passing functions returning the updated
  record (paired with the read value where the Rust method returns one).
-/

namespace RNES

/-- Pointwise update of a function-modelled byte memory (`mem[idx] = val`). -/
def updFn (f : Nat → Nat) (idx val : Nat) : Nat → Nat :=
  fun j => if j = idx then val else f j

@[simp] theorem updFn_same (f : Nat → Nat) (idx val : Nat) :
    updFn f idx val idx = val := by simp [updFn]

@[simp] theorem updFn_other (f : Nat → Nat) (idx val j : Nat) (h : j ≠ idx) :
    updFn f idx val j = f j := by simp [updFn, h]

/-- `cartridge.rs` `MirrorMode`. -/
inductive MirrorMode where
  | vertical
  | horizontal
  | singleScreenA
  | singleScreenB
deriving DecidableEq, Repr

/-- `cartridge.rs` `Cartridge` (runtime state).  The `rom_data` vector is not
kept (nothing reads it after parsing); `prg_rom_len` records `prg_rom.len()`,
which `MMC1Cartridge::apply_banks` consults. -/
structure Cartridge where
  prg_rom : Nat → Nat
  prg_rom_len : Nat
  chr_rom : Nat → Nat
  prg_ram : Nat → Nat
  chr_ram : Nat → Nat
  prg_banks : Nat
  chr_banks : Nat
  mapper_id : Nat
  mirror_horz : Bool
  mirror_vert : Bool
  mirror_mode : MirrorMode

/-- `Cartridge::set_mirroring`. -/
def Cartridge.set_mirroring (c : Cartridge) (mode : MirrorMode) : Cartridge :=
  { c with
    mirror_mode := mode
    mirror_vert := mode = MirrorMode.vertical
    mirror_horz := mode = MirrorMode.horizontal }

/-- `cartridge.rs` `MMC1Cartridge`.  The Rust tuples `chr_banks` and
`prg_bank_offsets` / `chr_bank_offsets` are split into named components. -/
structure MMC1Cartridge where
  cart : Cartridge
  shift_reg : Nat
  control : Nat
  chr_bank0 : Nat
  chr_bank1 : Nat
  prg_bank : Nat
  shift_count : Nat
  prg_bank_offset0 : Nat
  prg_bank_offset1 : Nat
  chr_bank_offset0 : Nat
  chr_bank_offset1 : Nat

/-- `MMC1Cartridge::apply_mirroring`. -/
def MMC1Cartridge.apply_mirroring (m : MMC1Cartridge) : MMC1Cartridge :=
  let mode :=
    if m.control &&& 0x03 = 0 then MirrorMode.singleScreenA
    else if m.control &&& 0x03 = 1 then MirrorMode.singleScreenB
    else if m.control &&& 0x03 = 2 then MirrorMode.vertical
    else MirrorMode.horizontal
  { m with cart := m.cart.set_mirroring mode }

/-- `MMC1Cartridge::apply_banks`.  `prg_bank_count` is
`prg_rom.len() / 0x4000`; when it is zero the Rust `%` would panic, so the
theorems below always assume a positive bank count. -/
def MMC1Cartridge.apply_banks (m : MMC1Cartridge) : MMC1Cartridge :=
  let chr_mode := (m.control >>> 4) &&& 1
  let m :=
    if m.cart.chr_banks = 0 then
      { m with chr_bank_offset0 := 0, chr_bank_offset1 := 0 }
    else if chr_mode = 0 then
      let bank := m.chr_bank0 &&& 0x1E
      { m with chr_bank_offset0 := bank * 0x1000, chr_bank_offset1 := (bank + 1) * 0x1000 }
    else
      { m with chr_bank_offset0 := m.chr_bank0 * 0x1000, chr_bank_offset1 := m.chr_bank1 * 0x1000 }
  let prg_mode := (m.control >>> 2) &&& 0x03
  let prg_bank_count := m.cart.prg_rom_len / 0x4000
  if prg_mode = 0 ∨ prg_mode = 1 then
    let bank := (m.prg_bank &&& 0x0E) % prg_bank_count
    { m with prg_bank_offset0 := bank * 0x4000, prg_bank_offset1 := (bank + 1) * 0x4000 }
  else if prg_mode = 2 then
    { m with prg_bank_offset0 := (prg_bank_count - 1) * 0x4000
             prg_bank_offset1 := (m.prg_bank % prg_bank_count) * 0x4000 }
  else
    { m with prg_bank_offset0 := (m.prg_bank % prg_bank_count) * 0x4000
             prg_bank_offset1 := (prg_bank_count - 1) * 0x4000 }

/-- `cartridge.rs` `Mapper`. -/
inductive Mapper where
  | none
  | mapper0 (cart : Cartridge)
  | mapper1 (mmc1 : MMC1Cartridge)

/-- `Mapper::cpu_read`. -/
def Mapper.cpu_read (mp : Mapper) (addr : Nat) : Nat :=
  match mp with
  | .none => 0
  | .mapper0 cart =>
    if 0x6000 ≤ addr ∧ addr ≤ 0x7FFF then cart.prg_ram (addr - 0x6000)
    else if 0x8000 ≤ addr ∧ addr ≤ 0xFFFF then
      if cart.prg_banks = 1 then cart.prg_rom (addr &&& 0x3FFF)
      else cart.prg_rom (addr - 0x8000)
    else 0
  | .mapper1 mmc1 =>
    if 0x6000 ≤ addr ∧ addr ≤ 0x7FFF then mmc1.cart.prg_ram (addr - 0x6000)
    else if 0x8000 ≤ addr ∧ addr ≤ 0xBFFF then
      mmc1.cart.prg_rom (mmc1.prg_bank_offset0 + (addr - 0x8000))
    else if 0xC000 ≤ addr ∧ addr ≤ 0xFFFF then
      mmc1.cart.prg_rom (mmc1.prg_bank_offset1 + (addr - 0xC000))
    else 0

/-- `Mapper::cpu_write`. -/
def Mapper.cpu_write (mp : Mapper) (addr val : Nat) : Mapper :=
  match mp with
  | .none => .none
  | .mapper0 cart =>
    if 0x6000 ≤ addr ∧ addr ≤ 0x7FFF then
      .mapper0 { cart with prg_ram := updFn cart.prg_ram (addr - 0x6000) val }
    else .mapper0 cart
  | .mapper1 mmc1 =>
    if addr < 0x6000 then .mapper1 mmc1
    else if addr < 0x8000 then
      let cart := { mmc1.cart with prg_ram := updFn mmc1.cart.prg_ram (addr - 0x6000) val }
      .mapper1 { mmc1 with cart := cart }
    else if val &&& 0x80 ≠ 0 then
      .mapper1 (MMC1Cartridge.apply_banks
        { mmc1 with shift_reg := 0x10, control := mmc1.control ||| 0x0C, shift_count := 0 })
    else
      let sr := (mmc1.shift_reg >>> 1) ||| ((val &&& 0x01) <<< 4)
      let sc := mmc1.shift_count + 1
      if sc = 5 then
        let reg := (addr >>> 13) &&& 0x03
        let m1 :=
          if reg = 0 then
            MMC1Cartridge.apply_mirroring { mmc1 with control := sr &&& 0x1F }
          else if reg = 1 then { mmc1 with chr_bank0 := sr &&& 0x1F }
          else if reg = 2 then { mmc1 with chr_bank1 := sr &&& 0x1F }
          else { mmc1 with prg_bank := sr &&& 0x0F }
        .mapper1 (MMC1Cartridge.apply_banks { m1 with shift_reg := 0x10, shift_count := 0 })
      else .mapper1 { mmc1 with shift_reg := sr, shift_count := sc }

/-- `Mapper::get_mirror_mode`. -/
def Mapper.get_mirror_mode (mp : Mapper) : MirrorMode :=
  match mp with
  | .none => MirrorMode.horizontal
  | .mapper0 cart => cart.mirror_mode
  | .mapper1 mmc1 => mmc1.cart.mirror_mode

/-- `Mapper::ppu_read`. -/
def Mapper.ppu_read (mp : Mapper) (addr : Nat) : Nat :=
  match mp with
  | .none => 0
  | .mapper0 cart =>
    if addr < 0x2000 then
      if cart.chr_banks ≠ 0 then cart.chr_rom addr else cart.chr_ram addr
    else 0
  | .mapper1 mmc1 =>
    if addr < 0x2000 then
      if mmc1.cart.chr_banks = 0 then
        let chr_mode := (mmc1.control >>> 4) &&& 1
        if chr_mode = 0 then mmc1.cart.chr_ram addr
        else
          let bank := if addr < 0x1000 then mmc1.chr_bank0 else mmc1.chr_bank1
          mmc1.cart.chr_ram (bank * 0x1000 + (addr &&& 0x0FFF))
      else
        let chr_mode := (mmc1.control >>> 4) &&& 1
        if chr_mode = 0 then
          let bank := mmc1.chr_bank0 &&& 0x1E
          mmc1.cart.chr_rom (bank * 0x1000 + (addr &&& 0x1FFF))
        else
          let bank := if addr < 0x1000 then mmc1.chr_bank0 else mmc1.chr_bank1
          mmc1.cart.chr_rom (bank * 0x1000 + (addr &&& 0x0FFF))
    else 0

/-- `Mapper::ppu_write`. -/
def Mapper.ppu_write (mp : Mapper) (addr val : Nat) : Mapper :=
  match mp with
  | .none => .none
  | .mapper0 cart =>
    if addr < 0x2000 ∧ cart.chr_banks = 0 then
      .mapper0 { cart with chr_ram := updFn cart.chr_ram addr val }
    else .mapper0 cart
  | .mapper1 mmc1 =>
    if addr < 0x2000 ∧ mmc1.cart.chr_banks = 0 then
      let chr_mode := (mmc1.control >>> 4) &&& 1
      if chr_mode = 0 then
        let cart := { mmc1.cart with chr_ram := updFn mmc1.cart.chr_ram addr val }
        .mapper1 { mmc1 with cart := cart }
      else
        let bank := if addr < 0x1000 then mmc1.chr_bank0 else mmc1.chr_bank1
        let cart := { mmc1.cart with
          chr_ram := updFn mmc1.cart.chr_ram (bank * 0x1000 + (addr &&& 0x0FFF)) val }
        .mapper1 { mmc1 with cart := cart }
    else .mapper1 mmc1

/-- PRG bank selector of an MMC1 mapper (the `prg_bank` field); `0` for the
other mapper variants. -/
def Mapper.prg_bank_sel (mp : Mapper) : Nat :=
  match mp with
  | .mapper1 mmc1 => mmc1.prg_bank
  | _ => 0

/-- PRG bank offsets of an MMC1 mapper; `(0, 0)` for the other variants. -/
def Mapper.prg_offsets (mp : Mapper) : Nat × Nat :=
  match mp with
  | .mapper1 mmc1 => (mmc1.prg_bank_offset0, mmc1.prg_bank_offset1)
  | _ => (0, 0)

/-- Five CPU writes to `0xE000`, all with bit 7 clear, whose bit-0 values are
the sequence `{1,0,1,0,1}` (the scenario of spec §8.5). -/
def mmc1StreamE000 (mp : Mapper) : Mapper :=
  ((((mp.cpu_write 0xE000 1).cpu_write 0xE000 0).cpu_write
      0xE000 1).cpu_write 0xE000 0).cpu_write 0xE000 1

/-- `ppu.rs` `PPURegisters`. -/
structure PPURegisters where
  control : Nat
  mask : Nat
  status : Nat
  oam_addr : Nat
  oam_data : Nat
  scroll_x : Nat
  scroll_y : Nat
  ppu_addr : Nat
  ppu_data : Nat
  address_latch : Bool
  fine_x : Nat
  vram_addr : Nat
  tmp_vram_addr : Nat
  data_buffer : Nat

/-- `ppu.rs` `PPUPhase`. -/
inductive PPUPhase where
  | preRender
  | render
  | postRender
  | vblank
deriving DecidableEq, Repr

/-- `ppu.rs` `PPU`.  The framebuffers, background-priority plane and the
per-line sprite list are omitted: none of the verified properties mentions
them and no embedded operation touches them. -/
structure PPU where
  registers : PPURegisters
  vram : Nat → Nat
  palette_ram : Nat → Nat
  oam_ram : Nat → Nat
  scanline : Nat
  scanline_cycle : Nat
  current_phase : PPUPhase
  even_frame : Bool

/-- `PPU::mirror_vram_addr`. -/
def PPU.mirror_vram_addr (mapper : Mapper) (addr : Nat) : Nat :=
  let offset := addr &&& 0xFFF
  let nt_idx := offset / 0x400
  let inner_offset := offset % 0x400
  match mapper.get_mirror_mode with
  | MirrorMode.vertical => (nt_idx % 2) * 0x400 + inner_offset
  | MirrorMode.horizontal => (nt_idx / 2) * 0x400 + inner_offset
  | MirrorMode.singleScreenA => inner_offset
  | MirrorMode.singleScreenB => 0x400 + inner_offset

/-- `PPU::read` (the PPU-address-space read; `&self`, hence pure). -/
def PPU.read (p : PPU) (mapper : Mapper) (addr0 : Nat) : Nat :=
  let addr := addr0 &&& 0x3FFF
  if addr ≤ 0x1FFF then mapper.ppu_read addr
  else if addr ≤ 0x3EFF then p.vram (PPU.mirror_vram_addr mapper addr)
  else
    let mirrored := addr &&& 0x1F
    let mirrored := if 0x10 ≤ mirrored ∧ mirrored % 4 = 0 then mirrored - 0x10 else mirrored
    p.palette_ram mirrored

/-- `PPU::write` (the PPU-address-space write). -/
def PPU.write (p : PPU) (mapper : Mapper) (addr0 val : Nat) : PPU × Mapper :=
  let addr := addr0 &&& 0x3FFF
  if addr ≤ 0x1FFF then (p, mapper.ppu_write addr val)
  else if addr ≤ 0x3EFF then
    ({ p with vram := updFn p.vram (PPU.mirror_vram_addr mapper addr) val }, mapper)
  else
    let mirrored := addr &&& 0x1F
    let mirrored := if 0x10 ≤ mirrored ∧ mirrored % 4 = 0 then mirrored - 0x10 else mirrored
    ({ p with palette_ram := updFn p.palette_ram mirrored val }, mapper)

/-- `PPU::read_register`.  In the source the mutations go through a
`RefCell`, so the Rust method takes `&self`; here it returns the updated
PPU alongside the value. -/
def PPU.read_register (p : PPU) (mapper : Mapper) (addr : Nat) : Nat × PPU :=
  if addr = 0x2000 then (p.registers.control, p)
  else if addr = 0x2002 then
    let result := p.registers.status
    let r := { p.registers with status := p.registers.status &&& 0x1F, address_latch := false }
    (result, { p with registers := r })
  else if addr = 0x2004 then (p.oam_ram p.registers.oam_addr, p)
  else if addr = 0x2006 then (p.registers.ppu_addr >>> 8, p)
  else if addr = 0x2007 then
    let buffered := p.registers.data_buffer
    let fetched := PPU.read p mapper p.registers.ppu_addr
    let result := if 0x3F00 ≤ p.registers.ppu_addr then fetched else buffered
    let newAddr :=
      if p.registers.control &&& 0x04 ≠ 0 then (p.registers.ppu_addr + 32) % 65536
      else (p.registers.ppu_addr + 1) % 65536
    let r := { p.registers with data_buffer := fetched, ppu_addr := newAddr }
    (result, { p with registers := r })
  else (0, p)

/-- `PPU::write_register`.  Note: the source matches the *incoming* address
against the exact range `0x2000..=0x2007`; anything outside it falls through
to the empty arm. -/
def PPU.write_register (p : PPU) (mapper : Mapper) (addr val : Nat) : PPU × Mapper :=
  if addr = 0x2000 then
    let t := (p.registers.tmp_vram_addr &&& 0xF3FF) ||| ((val &&& 0x03) <<< 10)
    let r := { p.registers with control := val, tmp_vram_addr := t }
    ({ p with registers := r }, mapper)
  else if addr = 0x2001 then
    let r := { p.registers with mask := val }
    ({ p with registers := r }, mapper)
  else if addr = 0x2002 then
    let r := { p.registers with status := p.registers.status &&& 0x7F, address_latch := false }
    ({ p with registers := r }, mapper)
  else if addr = 0x2003 then
    let r := { p.registers with oam_addr := val }
    ({ p with registers := r }, mapper)
  else if addr = 0x2004 then
    let r := { p.registers with oam_data := val, oam_addr := (p.registers.oam_addr + 1) % 256 }
    ({ p with registers := r, oam_ram := updFn p.oam_ram p.registers.oam_addr val }, mapper)
  else if addr = 0x2005 then
    if ¬p.registers.address_latch then
      let t := (p.registers.tmp_vram_addr &&& 0xFFE0) ||| (val >>> 3)
      let r := { p.registers with
                 scroll_x := val
                 fine_x := val &&& 0x07
                 tmp_vram_addr := t
                 address_latch := true }
      ({ p with registers := r }, mapper)
    else
      let t1 := (p.registers.tmp_vram_addr &&& 0x8FFF) ||| ((val &&& 0x07) <<< 12)
      let t2 := (t1 &&& 0xFC1F) ||| ((val &&& 0xF8) <<< 2)
      let r := { p.registers with scroll_y := val, tmp_vram_addr := t2, address_latch := false }
      ({ p with registers := r }, mapper)
  else if addr = 0x2006 then
    if ¬p.registers.address_latch then
      let t := (val <<< 8) ||| (p.registers.tmp_vram_addr &&& 0xFF)
      let r := { p.registers with tmp_vram_addr := t, ppu_addr := t, address_latch := true }
      ({ p with registers := r }, mapper)
    else
      let t := (p.registers.tmp_vram_addr &&& 0xFF00) ||| val
      let r := { p.registers with
                 tmp_vram_addr := t
                 ppu_addr := t
                 vram_addr := t
                 address_latch := false }
      ({ p with registers := r }, mapper)
  else if addr = 0x2007 then
    let r1 := { p.registers with ppu_data := val }
    let p1 := { p with registers := r1 }
    let pm := PPU.write p1 mapper p1.registers.ppu_addr val
    let p2 := pm.1
    let newAddr :=
      if p2.registers.control &&& 0x04 ≠ 0 then (p2.registers.ppu_addr + 32) % 65536
      else (p2.registers.ppu_addr + 1) % 65536
    let r2 := { p2.registers with ppu_addr := newAddr }
    ({ p2 with registers := r2 }, pm.2)
  else (p, mapper)

/-- `PPU::get_mask_flag` for a given flag bit. -/
def PPU.mask_flag (p : PPU) (flag : Nat) : Bool := p.registers.mask &&& flag ≠ 0

/-- `PPU::even_frame_adjustment`. -/
def PPU.even_frame_adjustment (p : PPU) : Nat :=
  if ¬p.even_frame ∧ p.mask_flag 0x08 ∧ p.mask_flag 0x10 then 1 else 0

/-- The `PreRender` arm of `PPU::step` (ppu.rs), together with the trailing
`scanline_cycle += 1` that `step` performs after the match.  The status clear
at dot 1 masks with `!(VBlank | SpriteZeroHit) = 0x3F`; the horizontal copy
at dot 258 masks `vram_addr` with `!0x41F = 0xFBE0` (as `u16`), the vertical
copy during dots 281–304 with `!0x7BE0 = 0x841F`. -/
def PPU.step_pre_render (p : PPU) : PPU :=
  let p1 :=
    if p.scanline_cycle = 1 then
      let r := { p.registers with status := p.registers.status &&& 0x3F }
      { p with registers := r }
    else if p.scanline_cycle = 258 ∧ p.mask_flag 0x08 ∧ p.mask_flag 0x10 then
      let t := p.registers.tmp_vram_addr
      let v := (p.registers.vram_addr &&& 0xFBE0) ||| (t &&& 0x41F)
      let r := { p.registers with vram_addr := v }
      { p with registers := r }
    else if (281 ≤ p.scanline_cycle ∧ p.scanline_cycle ≤ 304) ∧
        p.mask_flag 0x08 ∧ p.mask_flag 0x10 then
      let t := p.registers.tmp_vram_addr
      let v := (p.registers.vram_addr &&& 0x841F) ||| (t &&& 0x7BE0)
      let r := { p.registers with vram_addr := v }
      { p with registers := r }
    else if 340 - p.even_frame_adjustment ≤ p.scanline_cycle then
      { p with current_phase := PPUPhase.render, scanline_cycle := 0, scanline := 0 }
    else p
  { p1 with scanline_cycle := p1.scanline_cycle + 1 }

/-- `input.rs` `Input`. -/
structure Input where
  controller_state : Nat
  controller_shift : Nat

/-- `Input::read`: return bit 0 of the shift register, then shift it right
by one (a `u8` logical shift, so a zero enters at the top). -/
def Input.read (i : Input) : Nat × Input :=
  (i.controller_shift &&& 1, { i with controller_shift := i.controller_shift >>> 1 })

/-- `Input::write`: a write with bit 0 set latches the button state into the
shift register; otherwise nothing happens. -/
def Input.write (i : Input) (val : Nat) : Input :=
  if val &&& 1 ≠ 0 then { i with controller_shift := i.controller_state } else i

/-- `bus.rs` `Bus`. -/
structure Bus where
  cartridge : Mapper
  input : Input
  ram : Nat → Nat
  ppu : PPU
  irq : Bool
  nmi_request : Bool
  extra_cycles : Int

/-- `Bus::read`.  The source's match arms, in order: the input port, work
RAM (mirrored by `& 0x07FF`), the PPU registers (mirrored to
`0x2000 + (addr & 7)` *on the read path*), the cartridge, and `0` for
undecoded regions.  Mutations performed through `RefCell`s make this a
state transformer. -/
def Bus.read (s : Bus) (addr : Nat) : Nat × Bus :=
  if addr = 0x4016 then
    let r := s.input.read
    (r.1, { s with input := r.2 })
  else if addr ≤ 0x1FFF then (s.ram (addr &&& 0x07FF), s)
  else if 0x2000 ≤ addr ∧ addr ≤ 0x3FFF then
    let reg := 0x2000 + (addr &&& 0x07)
    let r := s.ppu.read_register s.cartridge reg
    (r.1, { s with ppu := r.2 })
  else if 0x6000 ≤ addr ∧ addr ≤ 0xFFFF then (s.cartridge.cpu_read addr, s)
  else (0, s)

/-- One iteration of the `Bus::write_oam_dma` loop: read the bus at `addr`,
store the byte at the current `oam_addr`, and increment `oam_addr` with `u8`
wraparound (`wrapping_add(1)`). -/
def Bus.dma_step (s : Bus) (addr : Nat) : Bus :=
  let rd := Bus.read s addr
  let s1 := rd.2
  let oa := s1.ppu.registers.oam_addr
  let p2 := { s1.ppu with oam_ram := updFn s1.ppu.oam_ram oa rd.1 }
  let r2 := { p2.registers with oam_addr := (oa + 1) % 256 }
  { s1 with ppu := { p2 with registers := r2 } }

/-- The OAM-DMA copy loop of `Bus::write_oam_dma`, iterating indices
`i, i+1, …, i+n-1`.  Returns the final bus state together with the list of
bytes read, in order. -/
def Bus.dma_run (base : Nat) : Nat → Nat → Bus → Bus × List Nat
  | _, 0, s => (s, [])
  | i, n + 1, s =>
    let rest := Bus.dma_run base (i + 1) n (Bus.dma_step s (base + i))
    (rest.1, (Bus.read s (base + i)).1 :: rest.2)

/-- `Bus::write_oam_dma`: copy 256 bytes starting at `page << 8` into OAM
and post a 513-cycle CPU stall. -/
def Bus.write_oam_dma (s : Bus) (page : Nat) : Bus :=
  let base := page * 256
  let r := Bus.dma_run base 0 256 s
  { r.1 with extra_cycles := 513 }

/-- The byte trace of an OAM-DMA transfer: the 256 values successively read
from CPU addresses `page*0x100 + i` (threading all side effects of those
reads), in order. -/
def Bus.dma_trace (s : Bus) (page : Nat) : List Nat :=
  (Bus.dma_run (page * 256) 0 256 s).2

/-- `Bus::write`.  The source's match arms, in order: input port, OAM-DMA
trigger, work RAM, PPU registers — note the *unmasked* `addr` is forwarded
to `PPU::write_register` — the cartridge, and undecoded regions. -/
def Bus.write (s : Bus) (addr val : Nat) : Bus :=
  if addr = 0x4016 then { s with input := s.input.write val }
  else if addr = 0x4014 then s.write_oam_dma val
  else if addr ≤ 0x1FFF then { s with ram := updFn s.ram (addr &&& 0x7FF) val }
  else if 0x2000 ≤ addr ∧ addr ≤ 0x3FFF then
    let r := s.ppu.write_register s.cartridge addr val
    { s with ppu := r.1, cartridge := r.2 }
  else if 0x6000 ≤ addr ∧ addr ≤ 0xFFFF then
    { s with cartridge := s.cartridge.cpu_write addr val }
  else s

/-- `cpu.rs` `CPU`. -/
structure CPU where
  a : Nat
  x : Nat
  y : Nat
  sp : Nat
  pc : Nat
  status : Nat
  bus : Bus
  ir_disable : Bool

/-- `CPU::fetch`: read the byte at `pc`, then advance `pc` with `u16`
wraparound. -/
def CPU.fetch (c : CPU) : Nat × CPU :=
  let r := c.bus.read c.pc
  (r.1, { c with bus := r.2, pc := (c.pc + 1) % 65536 })

/-- `AddressMode::get_crosspage_penalty`. -/
def get_crosspage_penalty (base effective : Nat) : Int :=
  if base &&& 0xFF00 ≠ effective &&& 0xFF00 then 1 else 0

/-- The `u16` image of a byte reinterpreted as `i8` and sign-extended to
`i16` (two's complement), as used by `pc.wrapping_add_signed(offset as i16)`.
The `% 256` reflects the `u8` type of the operand byte. -/
def i8_as_u16 (b : Nat) : Nat :=
  if b % 256 < 0x80 then b % 256 else 0xFF00 + b % 256

/-- The `Relative` arm of `AddressMode::decode`: fetch the offset byte,
compute the branch target `pc.wrapping_add_signed(offset)` from the
post-operand `pc`, and a cross-page penalty against that `pc`. -/
def CPU.decode_relative (c : CPU) : (Nat × Int) × CPU :=
  let f := c.fetch
  let c1 := f.2
  let effective := (c1.pc + i8_as_u16 f.1) % 65536
  ((effective, get_crosspage_penalty c1.pc effective), c1)

/-- `CPU::brcnd`: shared implementation of the eight conditional branches.
Returns the cycle count and the updated CPU. -/
def CPU.brcnd (c : CPU) (condition : Bool) : Int × CPU :=
  let d := c.decode_relative
  let addr := d.1.1
  let extra := d.1.2
  let c1 := d.2
  if condition then
    let c2 := { c1 with bus := (c1.bus.read c1.pc).2 }
    let c3 :=
      if c2.pc &&& 0xFF00 ≠ addr &&& 0xFF00 then
        { c2 with bus := (c2.bus.read ((c2.pc &&& 0xFF00) ||| (addr &&& 0xFF))).2 }
      else c2
    (3 + extra, { c3 with pc := addr })
  else (2, c1)

/-- `CPU::pop`: increment `sp` (`u16` add, then `& 0xFF`), then read the
stack byte at `sp + 0x100`. -/
def CPU.pop (c : CPU) : Nat × CPU :=
  let sp1 := ((c.sp + 1) % 65536) &&& 0xFF
  let r := c.bus.read (sp1 + 0x100)
  (r.1, { c with sp := sp1, bus := r.2 })

/-- `CPU::pop_word`: pop low byte, then high byte. -/
def CPU.pop_word (c : CPU) : Nat × CPU :=
  let lo := c.pop
  let hi := lo.2.pop
  ((hi.1 <<< 8) ||| lo.1, hi.2)

/-- `CPU::plp`: two dummy reads, pull the status byte, clear B (`& !0x10 =
& 0xEF`) and set U (`| 0x20`). -/
def CPU.plp (c : CPU) : Int × CPU :=
  let c1 := { c with bus := (c.bus.read c.pc).2 }
  let c2 := { c1 with bus := (c1.bus.read (c1.sp + 0x100)).2 }
  let v := c2.pop
  (4, { v.2 with status := (v.1 &&& 0xEF) ||| 0x20 })

/-- `CPU::rti`: two dummy reads, pull status (clearing B, setting U), then
pull the return address. -/
def CPU.rti (c : CPU) : Int × CPU :=
  let c1 := { c with bus := (c.bus.read c.pc).2 }
  let c2 := { c1 with bus := (c1.bus.read (c1.sp + 0x100)).2 }
  let v := c2.pop
  let c3 := { v.2 with status := (v.1 &&& 0xEF) ||| 0x20 }
  let w := c3.pop_word
  (6, { w.2 with pc := w.1 })

/-! ## ROM loading (`Cartridge::from_bytes` / `Cartridge::from_file`)

Here a Rust panic (out-of-range indexing or slicing) is the behaviour of
interest, so the file image is a `List Nat` and every indexing/slicing
operation carries the bounds check that Rust performs at runtime; `none`
models a panic. -/

/-- The iNES signature bytes `"NES\x1A"`. -/
def iNesSig : List Nat := [0x4E, 0x45, 0x53, 0x1A]

/-- `Cartridge::from_bytes`.  Indexes bytes 4–7 of the header, then slices
the PRG and CHR images; each of these panics (`none`) when the file is too
short, exactly where Rust's `rom_data[..]` would.  The resulting memories
are the sliced lists read through `List.getD`. -/
def Cartridge.from_bytes (rom_data : List Nat) : Option Cartridge :=
  if rom_data.length < 8 then none
  else
    let prg_banks := rom_data.getD 4 0
    let chr_banks := rom_data.getD 5 0
    let flag6 := rom_data.getD 6 0
    let flag7 := rom_data.getD 7 0
    let mirror_vert := flag6 &&& 0x01 ≠ 0
    let mirror_mode :=
      if flag6 &&& 0x08 = 0 ∧ flag6 &&& 1 ≠ 0 then MirrorMode.vertical
      else MirrorMode.horizontal
    let mapper_id := (flag6 >>> 4) ||| ((flag7 >>> 4) <<< 4)
    let prg_size := prg_banks * 16 * 1024
    let chr_size := chr_banks * 8 * 1024
    let offset := if flag6 &&& 0x04 ≠ 0 then 16 + 512 else 16
    if rom_data.length < offset + prg_size then none
    else
      let prg_rom := (rom_data.drop offset).take prg_size
      let offset2 := offset + prg_size
      if rom_data.length < offset2 + chr_size then none
      else
        let chr_rom := (rom_data.drop offset2).take chr_size
        some
          { prg_rom := fun i => prg_rom.getD i 0
            prg_rom_len := prg_size
            chr_rom := fun i => chr_rom.getD i 0
            prg_ram := fun _ => 0
            chr_ram := fun _ => 0
            prg_banks := prg_banks
            chr_banks := chr_banks
            mapper_id := mapper_id
            mirror_horz := ¬mirror_vert
            mirror_vert := mirror_vert
            mirror_mode := mirror_mode }

/-- `Cartridge::from_file`, with the file already read into a byte list.
Compares the first four bytes against `"NES\x1A"` (panicking when fewer than
four bytes exist, as the Rust slice comparison would), returns the load
error for a signature mismatch, and otherwise defers to `from_bytes` —
which never returns an error, only `Ok` or a panic. -/
def Cartridge.from_file (data : List Nat) : Option (Except String Cartridge) :=
  if data.length < 4 then none
  else if data.take 4 ≠ iNesSig then some (Except.error "Not a valid nes rom")
  else (Cartridge.from_bytes data).map Except.ok

/-! ## Sample states used by counterexamples and witnesses -/

/-- A concrete cartridge: 32 KiB of PRG ROM (two 16 KiB banks), one CHR
bank, mapper 1, horizontal mirroring, all memories zero. -/
def sampleCart : Cartridge :=
  { prg_rom := fun _ => 0
    prg_rom_len := 0x8000
    chr_rom := fun _ => 0
    prg_ram := fun _ => 0
    chr_ram := fun _ => 0
    prg_banks := 2
    chr_banks := 1
    mapper_id := 1
    mirror_horz := true
    mirror_vert := false
    mirror_mode := MirrorMode.horizontal }

/-- A concrete MMC1 state as `MMC1Cartridge::with_cartridge` leaves it:
shift register `0x10`, control `0x0C`, shift count `0`. -/
def sampleMMC1 : MMC1Cartridge :=
  { cart := sampleCart
    shift_reg := 0x10
    control := 0x0C
    chr_bank0 := 0
    chr_bank1 := 0
    prg_bank := 0
    shift_count := 0
    prg_bank_offset0 := 0x4000
    prg_bank_offset1 := 0x4000
    chr_bank_offset0 := 0
    chr_bank_offset1 := 0 }

/-! ## C1 — MMC1 serial writes to 0xE000 -/

/-- C1 (counterexample): starting an MMC1 mapper in the documented initial
state (shift register `0x10`, shift count `0`, control `0x0C`) and streaming
the five bit-0 values `{1,0,1,0,1}` to `0xE000` does *not* leave the PRG bank
selector at `0x15`: the fifth write commits the shift value `0x15` to
register 3, which masks it with `0x0F`, so the selector is `0x05`. -/
theorem mmc1_stream_selector_not_0x15 :
    (mmc1StreamE000 (Mapper.mapper1 sampleMMC1)).prg_bank_sel = 0x05 ∧
    (mmc1StreamE000 (Mapper.mapper1 sampleMMC1)).prg_bank_sel ≠ 0x15 := by
  constructor <;> decide

/-- C1 (amended): from any MMC1 state with shift register `0x10`, shift
count `0` and control `0x0C` (the reset values) over a ROM with a positive
16 KiB PRG bank count, streaming five writes with bit 7 clear and bit-0
sequence `{1,0,1,0,1}` to `0xE000` commits the shift value `0x15` masked to
four bits — PRG bank selector `0x05` — and recomputes the PRG bank offsets
from that selector (`apply_banks` in PRG mode 3: first window
`(5 mod bankCount) * 0x4000`, second window fixed to the last bank). -/
theorem mmc1_stream_commits (cart : Cartridge) (cb0 cb1 pb p0 p1 q0 q1 : Nat)
    (hn : 0 < cart.prg_rom_len / 0x4000) :
    (mmc1StreamE000 (Mapper.mapper1
        ⟨cart, 0x10, 0x0C, cb0, cb1, pb, 0, p0, p1, q0, q1⟩)).prg_bank_sel = 0x05 ∧
    (mmc1StreamE000 (Mapper.mapper1
        ⟨cart, 0x10, 0x0C, cb0, cb1, pb, 0, p0, p1, q0, q1⟩)).prg_offsets =
      ((5 % (cart.prg_rom_len / 0x4000)) * 0x4000,
       (cart.prg_rom_len / 0x4000 - 1) * 0x4000) := by
  have hstep : mmc1StreamE000 (Mapper.mapper1
      ⟨cart, 0x10, 0x0C, cb0, cb1, pb, 0, p0, p1, q0, q1⟩) =
      Mapper.mapper1 (MMC1Cartridge.apply_banks
        ⟨cart, 0x10, 0x0C, cb0, cb1, 0x05, 0, p0, p1, q0, q1⟩) := by
    simp [mmc1StreamE000, Mapper.cpu_write,
      show (7 &&& 3 : Nat) = 3 from rfl, show (21 &&& 15 : Nat) = 5 from rfl]
  rw [hstep]
  by_cases h : cart.chr_banks = 0 <;>
    simp [MMC1Cartridge.apply_banks, Mapper.prg_bank_sel, Mapper.prg_offsets, h,
      show (0 &&& 1 : Nat) = 0 from rfl, show (3 &&& 3 : Nat) = 3 from rfl]

/-- Witness for `mmc1_stream_commits` at the concrete sample state. -/
theorem mmc1_stream_commits_witness :
    0 < sampleCart.prg_rom_len / 0x4000 ∧
    ((mmc1StreamE000 (Mapper.mapper1
        ⟨sampleCart, 0x10, 0x0C, 0, 0, 0, 0, 0x4000, 0x4000, 0, 0⟩)).prg_bank_sel = 0x05 ∧
     (mmc1StreamE000 (Mapper.mapper1
        ⟨sampleCart, 0x10, 0x0C, 0, 0, 0, 0, 0x4000, 0x4000, 0, 0⟩)).prg_offsets =
       ((5 % (sampleCart.prg_rom_len / 0x4000)) * 0x4000,
        (sampleCart.prg_rom_len / 0x4000 - 1) * 0x4000)) :=
  ⟨by decide, mmc1_stream_commits sampleCart 0 0 0 0x4000 0x4000 0 0 (by decide)⟩

/-! ## C4 — ROM loading errors -/

/-- A 16-byte file with a valid signature that declares one 16 KiB PRG bank
but contains no PRG data at all. -/
def oversizeRom : List Nat :=
  [0x4E, 0x45, 0x53, 0x1A, 1, 0, 0, 0, 0, 0, 0, 0, 0, 0, 0, 0]

/-- C4 (counterexample): on a file whose declared PRG bank count exceeds the
file size, `from_file` does not return an `InvalidRomFormat`-style error —
it panics (models as `none`) in `from_bytes` when slicing
`rom_data[16..16+0x4000]`. -/
theorem from_file_oversize_panics : Cartridge.from_file oversizeRom = none := rfl

/-- C4 (amended): given at least four bytes, loading returns the
`"Not a valid nes rom"` error exactly when the first four bytes differ from
`"NES\x1A"`; when the signature matches, no error value is ever returned
(the load either succeeds or panics on a short file — bank counts are not
validated). -/
theorem from_file_error_iff (data : List Nat) (h : 4 ≤ data.length) :
    (Cartridge.from_file data = some (Except.error "Not a valid nes rom") ↔
      data.take 4 ≠ iNesSig) ∧
    (data.take 4 = iNesSig →
      ∀ e : String, Cartridge.from_file data ≠ some (Except.error e)) := by
  have hlen : ¬data.length < 4 := by omega
  unfold Cartridge.from_file
  rw [if_neg hlen]
  by_cases hsig : data.take 4 = iNesSig
  · rw [if_neg (by simp [hsig])]
    cases hfb : Cartridge.from_bytes data <;> simp [hsig]
  · rw [if_pos hsig]
    simp [hsig]

/-- Witness for `from_file_error_iff` on a four-byte file with a bad
signature. -/
theorem from_file_error_iff_witness :
    4 ≤ ([9, 9, 9, 9] : List Nat).length ∧
    ((Cartridge.from_file [9, 9, 9, 9] = some (Except.error "Not a valid nes rom") ↔
       ([9, 9, 9, 9] : List Nat).take 4 ≠ iNesSig) ∧
     (([9, 9, 9, 9] : List Nat).take 4 = iNesSig →
       ∀ e : String, Cartridge.from_file [9, 9, 9, 9] ≠ some (Except.error e))) :=
  ⟨by decide, from_file_error_iff [9, 9, 9, 9] (by decide)⟩

/-! ## More sample states -/

/-- PPU registers in their `PPURegisters::new()` state. -/
def sampleRegisters : PPURegisters :=
  { control := 0, mask := 0, status := 0, oam_addr := 0, oam_data := 0,
    scroll_x := 0, scroll_y := 0, ppu_addr := 0, ppu_data := 0,
    address_latch := false, fine_x := 0, vram_addr := 0, tmp_vram_addr := 0,
    data_buffer := 0 }

/-- A freshly constructed PPU (`PPU::new()`). -/
def samplePPU : PPU :=
  { registers := sampleRegisters, vram := fun _ => 0, palette_ram := fun _ => 0,
    oam_ram := fun _ => 0, scanline := 0, scanline_cycle := 0,
    current_phase := PPUPhase.preRender, even_frame := true }

/-- A freshly initialized bus (`Bus::init()`) with no cartridge. -/
def sampleBus : Bus :=
  { cartridge := Mapper.none, input := ⟨0, 0⟩, ram := fun _ => 0,
    ppu := samplePPU, irq := false, nmi_request := false, extra_cycles := 0 }

/-! ## C2 — PPU register mirroring on the bus -/

/-- C2 (evaluation at the failing input): a CPU write to the mirror address
`0x2008` is silently dropped — `Bus::write` forwards the unmasked address to
`PPU::write_register`, whose match covers only `0x2000..=0x2007` — while the
same write to `0x2000` sets PPUCTRL; the read path, by contrast, does mirror
`0x2008` onto `0x2000`. -/
theorem ppu_mirror_write_dropped :
    (Bus.write sampleBus 0x2008 0xFF).ppu.registers.control = 0 ∧
    (Bus.write sampleBus 0x2000 0xFF).ppu.registers.control = 0xFF ∧
    (Bus.read sampleBus 0x2008).1 = (Bus.read sampleBus 0x2000).1 :=
  ⟨rfl, rfl, rfl⟩

/-! ## C3 — pre-render dot 1 status clear -/

/-- C3 (evaluation at the failing input): stepping the PPU in the pre-render
phase at dot 1 with all three status bits set (`0xE0`) clears VBlank (0x80)
and sprite-zero-hit (0x40) but leaves sprite overflow (0x20) set: the code
masks the status with `!(VBlank | SpriteZeroHit) = 0x3F`. -/
theorem pre_render_dot1_keeps_sprite_overflow :
    (PPU.step_pre_render { samplePPU with
        scanline_cycle := 1,
        registers := { sampleRegisters with status := 0xE0 } }).registers.status
      = 0x20 := rfl

/-! ## C6 — palette RAM aliasing -/

/-- C6: for every byte `v`, every PPU state and mapper, a value written at a
palette base address `{0x3F00, 0x3F04, 0x3F08, 0x3F0C}` is read back at the
corresponding alias `{0x3F10, 0x3F14, 0x3F18, 0x3F1C}`, and vice versa —
both map onto the same palette-RAM cell. -/
theorem palette_alias (p : PPU) (m : Mapper) (v : Nat) :
    (PPU.read (PPU.write p m 0x3F00 v).1 m 0x3F10 = v ∧
     PPU.read (PPU.write p m 0x3F10 v).1 m 0x3F00 = v) ∧
    (PPU.read (PPU.write p m 0x3F04 v).1 m 0x3F14 = v ∧
     PPU.read (PPU.write p m 0x3F14 v).1 m 0x3F04 = v) ∧
    (PPU.read (PPU.write p m 0x3F08 v).1 m 0x3F18 = v ∧
     PPU.read (PPU.write p m 0x3F18 v).1 m 0x3F08 = v) ∧
    (PPU.read (PPU.write p m 0x3F0C v).1 m 0x3F1C = v ∧
     PPU.read (PPU.write p m 0x3F1C v).1 m 0x3F0C = v) :=
  ⟨⟨rfl, rfl⟩, ⟨rfl, rfl⟩, ⟨rfl, rfl⟩, ⟨rfl, rfl⟩⟩

/-! ## C8 — U and B flags after PLP / RTI -/

/-- Bit 5 of `(v & 0xEF) | 0x20` is always set. -/
theorem status_pull_sets_u (v : Nat) : ((v &&& 0xEF) ||| 0x20) &&& 0x20 = 0x20 := by
  apply Nat.eq_of_testBit_eq
  intro i
  simp only [Nat.testBit_and, Nat.testBit_or]
  by_cases h : i = 5
  · subst h
    rw [show Nat.testBit 0xEF 5 = true from rfl, show Nat.testBit 0x20 5 = true from rfl]
    simp
  · rw [show (0x20 : Nat) = 2 ^ 5 from rfl, Nat.testBit_two_pow_of_ne (fun h5 => h h5.symm)]
    simp

/-- Bit 4 of `(v & 0xEF) | 0x20` is always clear. -/
theorem status_pull_clears_b (v : Nat) : ((v &&& 0xEF) ||| 0x20) &&& 0x10 = 0 := by
  apply Nat.eq_of_testBit_eq
  intro i
  simp only [Nat.testBit_and, Nat.testBit_or, Nat.zero_testBit]
  by_cases h : i = 4
  · subst h
    rw [show Nat.testBit 0xEF 4 = false from rfl, show Nat.testBit 0x20 4 = false from rfl]
    simp
  · rw [show (0x10 : Nat) = 2 ^ 4 from rfl, Nat.testBit_two_pow_of_ne (fun h4 => h h4.symm)]
    simp

/-- C8: after PLP or RTI the status register always has the U flag (0x20)
set and the B flag (0x10) clear, whatever byte was pulled from the stack. -/
theorem plp_rti_flag_invariant (c : CPU) :
    ((CPU.plp c).2.status &&& 0x20 = 0x20 ∧ (CPU.plp c).2.status &&& 0x10 = 0) ∧
    ((CPU.rti c).2.status &&& 0x20 = 0x20 ∧ (CPU.rti c).2.status &&& 0x10 = 0) :=
  ⟨⟨status_pull_sets_u _, status_pull_clears_b _⟩,
   ⟨status_pull_sets_u _, status_pull_clears_b _⟩⟩

/-! ## C5 / C9 — OAM DMA -/

/-- `PPU::read_register` never changes `oam_addr` (`0x2002` touches the
status and latch, `0x2007` the data buffer and `ppu_addr`). -/
theorem PPU.read_register_oam_addr (p : PPU) (m : Mapper) (r : Nat) :
    (PPU.read_register p m r).2.registers.oam_addr = p.registers.oam_addr := by
  unfold PPU.read_register
  split_ifs <;> rfl

/-- `PPU::read_register` never writes OAM. -/
theorem PPU.read_register_oam_ram (p : PPU) (m : Mapper) (r : Nat) :
    (PPU.read_register p m r).2.oam_ram = p.oam_ram := by
  unfold PPU.read_register
  split_ifs <;> rfl

/-- A bus read never changes `oam_addr`. -/
theorem Bus.read_oam_addr (s : Bus) (addr : Nat) :
    (Bus.read s addr).2.ppu.registers.oam_addr = s.ppu.registers.oam_addr := by
  unfold Bus.read
  split_ifs <;> first | rfl | exact PPU.read_register_oam_addr ..

/-- A bus read never writes OAM. -/
theorem Bus.read_oam_ram (s : Bus) (addr : Nat) :
    (Bus.read s addr).2.ppu.oam_ram = s.ppu.oam_ram := by
  unfold Bus.read
  split_ifs <;> first | rfl | exact PPU.read_register_oam_ram ..

/-- After one DMA iteration, `oam_addr` has advanced by one (mod 256). -/
theorem Bus.dma_step_oam_addr (s : Bus) (addr : Nat) :
    (Bus.dma_step s addr).ppu.registers.oam_addr =
      (s.ppu.registers.oam_addr + 1) % 256 := by
  unfold Bus.dma_step
  simp [Bus.read_oam_addr]

/-- After one DMA iteration, OAM holds the byte just read at the old
`oam_addr`. -/
theorem Bus.dma_step_oam_ram (s : Bus) (addr : Nat) :
    (Bus.dma_step s addr).ppu.oam_ram =
      updFn s.ppu.oam_ram s.ppu.registers.oam_addr (Bus.read s addr).1 := by
  unfold Bus.dma_step
  simp [Bus.read_oam_addr, Bus.read_oam_ram]

/-- The DMA loop reads exactly `n` bytes. -/
theorem Bus.dma_run_length (base : Nat) :
    ∀ (n i : Nat) (s : Bus), (Bus.dma_run base i n s).2.length = n := by
  intro n
  induction n with
  | zero => intro i s; rfl
  | succ n ih => intro i s; simp [Bus.dma_run, ih]

/-- Invariant of the DMA loop: after `n ≤ 256` iterations starting from a
valid `oam_addr`, (1) `oam_addr` has advanced by `n` mod 256, (2) the OAM
cell at `(oam_addr + j) mod 256` holds the `j`-th byte read, for `j < n`,
and (3) every other OAM cell is untouched. -/
theorem Bus.dma_run_spec (base : Nat) :
    ∀ (n i : Nat) (s : Bus), n ≤ 256 → s.ppu.registers.oam_addr < 256 →
      ((Bus.dma_run base i n s).1.ppu.registers.oam_addr
          = (s.ppu.registers.oam_addr + n) % 256) ∧
      (∀ j, j < n →
        (Bus.dma_run base i n s).1.ppu.oam_ram ((s.ppu.registers.oam_addr + j) % 256)
          = (Bus.dma_run base i n s).2.getD j 0) ∧
      (∀ a, (∀ j, j < n → a ≠ (s.ppu.registers.oam_addr + j) % 256) →
        (Bus.dma_run base i n s).1.ppu.oam_ram a = s.ppu.oam_ram a) := by
  intro n
  induction n with
  | zero =>
    intro i s _ ho
    refine ⟨?_, ?_, ?_⟩
    · simpa [Bus.dma_run] using (Nat.mod_eq_of_lt ho).symm
    · intro j hj; exact absurd hj (Nat.not_lt_zero j)
    · intro a _; rfl
  | succ n ih =>
    intro i s hn ho
    set A := s.ppu.registers.oam_addr with hA
    have hs2a : (Bus.dma_step s (base + i)).ppu.registers.oam_addr = (A + 1) % 256 :=
      Bus.dma_step_oam_addr s (base + i)
    have hs2o : (Bus.dma_step s (base + i)).ppu.oam_ram =
        updFn s.ppu.oam_ram A (Bus.read s (base + i)).1 :=
      Bus.dma_step_oam_ram s (base + i)
    have hlt : (Bus.dma_step s (base + i)).ppu.registers.oam_addr < 256 := by
      rw [hs2a]; exact Nat.mod_lt _ (by omega)
    obtain ⟨ih1, ih2, ih3⟩ := ih (i + 1) (Bus.dma_step s (base + i)) (by omega) hlt
    have hrun : Bus.dma_run base i (n + 1) s =
        ((Bus.dma_run base (i + 1) n (Bus.dma_step s (base + i))).1,
         (Bus.read s (base + i)).1 ::
           (Bus.dma_run base (i + 1) n (Bus.dma_step s (base + i))).2) := rfl
    refine ⟨?_, ?_, ?_⟩
    · rw [hrun, ih1, hs2a]
      omega
    · intro j hj
      match j with
      | 0 =>
        have hwin : ∀ j', j' < n →
            A ≠ ((Bus.dma_step s (base + i)).ppu.registers.oam_addr + j') % 256 := by
          intro j' hj'
          rw [hs2a]
          omega
        rw [hrun]
        have huntouched := ih3 A hwin
        simp only [List.getD_cons_zero]
        rw [show (A + 0) % 256 = A by omega, huntouched, hs2o, updFn_same]
      | j' + 1 =>
        rw [hrun]
        have := ih2 j' (by omega)
        simp only [List.getD_cons_succ]
        rw [show (A + (j' + 1)) % 256 =
            ((Bus.dma_step s (base + i)).ppu.registers.oam_addr + j') % 256 by
          rw [hs2a]; omega]
        exact this
    · intro a ha
      rw [hrun]
      have h0 : a ≠ A := by
        have := ha 0 (by omega)
        rwa [show (A + 0) % 256 = A by omega] at this
      have := ih3 a (by
        intro j' hj'
        rw [hs2a]
        have := ha (j' + 1) (by omega)
        omega)
      rw [this, hs2o, updFn_other _ _ _ _ h0]

/-- Splitting the DMA loop: running `m + n` iterations equals running `m`,
then `n` more from the reached state, concatenating the read traces. -/
theorem Bus.dma_run_add (base : Nat) :
    ∀ (m n i : Nat) (s : Bus),
      Bus.dma_run base i (m + n) s =
        ((Bus.dma_run base (i + m) n (Bus.dma_run base i m s).1).1,
         (Bus.dma_run base i m s).2 ++
           (Bus.dma_run base (i + m) n (Bus.dma_run base i m s).1).2) := by
  intro m
  induction m with
  | zero => intro n i s; simp [Bus.dma_run]
  | succ m ih =>
    intro n i s
    have h1 : Bus.dma_run base i (m + 1 + n) s =
        ((Bus.dma_run base (i + 1) (m + n) (Bus.dma_step s (base + i))).1,
         (Bus.read s (base + i)).1 ::
           (Bus.dma_run base (i + 1) (m + n) (Bus.dma_step s (base + i))).2) := by
      rw [show m + 1 + n = (m + n) + 1 by omega]
      rfl
    have h2 : Bus.dma_run base i (m + 1) s =
        ((Bus.dma_run base (i + 1) m (Bus.dma_step s (base + i))).1,
         (Bus.read s (base + i)).1 ::
           (Bus.dma_run base (i + 1) m (Bus.dma_step s (base + i))).2) := rfl
    rw [h1, ih n (i + 1) (Bus.dma_step s (base + i)), h2]
    simp [show i + 1 + m = i + (m + 1) by omega]

/-- The `i`-th byte of the DMA trace is the bus read of `page*0x100 + i`
performed in the state reached after the first `i` copies. -/
theorem Bus.dma_trace_getD (s : Bus) (page i : Nat) (hi : i < 256) :
    (Bus.dma_trace s page).getD i 0 =
      (Bus.read (Bus.dma_run (page * 256) 0 i s).1 (page * 256 + i)).1 := by
  have hadd := Bus.dma_run_add (page * 256) i (256 - i) 0 s
  rw [show i + (256 - i) = 256 by omega] at hadd
  have hlen : (Bus.dma_run (page * 256) 0 i s).2.length = i :=
    Bus.dma_run_length (page * 256) i 0 s
  have hrest : Bus.dma_run (page * 256) (0 + i) (256 - i)
      (Bus.dma_run (page * 256) 0 i s).1 =
      ((Bus.dma_run (page * 256) (0 + i + 1) (256 - i - 1)
          (Bus.dma_step (Bus.dma_run (page * 256) 0 i s).1 (page * 256 + (0 + i)))).1,
       (Bus.read (Bus.dma_run (page * 256) 0 i s).1 (page * 256 + (0 + i))).1 ::
         (Bus.dma_run (page * 256) (0 + i + 1) (256 - i - 1)
           (Bus.dma_step (Bus.dma_run (page * 256) 0 i s).1 (page * 256 + (0 + i)))).2) := by
    rw [show 256 - i = (256 - i - 1) + 1 by omega]
    rfl
  unfold Bus.dma_trace
  rw [hadd]
  simp only [hrest]
  rw [List.getD_eq_getElem?_getD, List.getElem?_append_right (by omega),
    hlen, Nat.sub_self]
  simp

/-- C5: writing byte `page` to `0x4014` posts a 513-cycle stall and copies
the 256 bytes read, in order, from CPU addresses `page*0x100 + i` into OAM
at `(OAMADDR + i) mod 256`; the `i`-th copied byte is exactly the bus read
of `page*0x100 + i` in the state reached after the first `i` copies. -/
theorem oam_dma_copies (s : Bus) (page : Nat)
    (ho : s.ppu.registers.oam_addr < 256) :
    (Bus.write s 0x4014 page).extra_cycles = 513 ∧
    (∀ i, i < 256 →
      (Bus.write s 0x4014 page).ppu.oam_ram ((s.ppu.registers.oam_addr + i) % 256)
        = (Bus.dma_trace s page).getD i 0) ∧
    (∀ i, i < 256 →
      (Bus.dma_trace s page).getD i 0 =
        (Bus.read (Bus.dma_run (page * 256) 0 i s).1 (page * 256 + i)).1) := by
  obtain ⟨h1, h2, h3⟩ := Bus.dma_run_spec (page * 256) 256 0 s le_rfl ho
  refine ⟨rfl, ?_, ?_⟩
  · intro i hi
    exact h2 i hi
  · intro i hi
    exact Bus.dma_trace_getD s page i hi

/-- Witness for `oam_dma_copies` at the freshly initialized bus, page 2. -/
theorem oam_dma_copies_witness :
    sampleBus.ppu.registers.oam_addr < 256 ∧
    ((Bus.write sampleBus 0x4014 2).extra_cycles = 513 ∧
     (∀ i, i < 256 →
       (Bus.write sampleBus 0x4014 2).ppu.oam_ram
           ((sampleBus.ppu.registers.oam_addr + i) % 256)
         = (Bus.dma_trace sampleBus 2).getD i 0) ∧
     (∀ i, i < 256 →
       (Bus.dma_trace sampleBus 2).getD i 0 =
         (Bus.read (Bus.dma_run (2 * 256) 0 i sampleBus).1 (2 * 256 + i)).1)) :=
  ⟨by decide, oam_dma_copies sampleBus 2 (by decide)⟩

/-- C9: an OAM-DMA transfer leaves `OAMADDR` exactly where it started (256
wrapping increments return it to its initial value), and no OAM cell outside
the 256-byte array is ever written. -/
theorem oam_dma_oam_addr_restored (s : Bus) (page : Nat)
    (ho : s.ppu.registers.oam_addr < 256) :
    (Bus.write s 0x4014 page).ppu.registers.oam_addr = s.ppu.registers.oam_addr ∧
    ∀ a, 256 ≤ a → (Bus.write s 0x4014 page).ppu.oam_ram a = s.ppu.oam_ram a := by
  obtain ⟨h1, h2, h3⟩ := Bus.dma_run_spec (page * 256) 256 0 s le_rfl ho
  constructor
  · have hmod : (s.ppu.registers.oam_addr + 256) % 256 = s.ppu.registers.oam_addr := by
      omega
    calc (Bus.write s 0x4014 page).ppu.registers.oam_addr
        = (s.ppu.registers.oam_addr + 256) % 256 := h1
      _ = s.ppu.registers.oam_addr := hmod
  · intro a ha
    refine h3 a ?_
    intro j hj
    have := Nat.mod_lt (s.ppu.registers.oam_addr + j) (show 0 < 256 by omega)
    omega

/-- Witness for `oam_dma_oam_addr_restored` at the freshly initialized bus,
page 3. -/
theorem oam_dma_oam_addr_restored_witness :
    sampleBus.ppu.registers.oam_addr < 256 ∧
    ((Bus.write sampleBus 0x4014 3).ppu.registers.oam_addr
        = sampleBus.ppu.registers.oam_addr ∧
     ∀ a, 256 ≤ a →
       (Bus.write sampleBus 0x4014 3).ppu.oam_ram a = sampleBus.ppu.oam_ram a) :=
  ⟨by decide, oam_dma_oam_addr_restored sampleBus 3 (by decide)⟩

/-! ## C7 — conditional branch cycle counts -/

/-- C7: a conditional branch (all eight opcodes share `CPU::brcnd`) takes 2
cycles when the condition is false, 3 when it is true and the post-operand
program counter shares its high byte with the branch target, and 4 when the
branch crosses a page.  `(CPU.brcnd c false).2.pc` is the post-instruction
PC and `(CPU.brcnd c true).2.pc` the branch target. -/
theorem branch_cycle_count (c : CPU) (cond : Bool) :
    (CPU.brcnd c cond).1 =
      if cond then
        (if (CPU.brcnd c false).2.pc &&& 0xFF00 = (CPU.brcnd c true).2.pc &&& 0xFF00
         then 3 else 4)
      else 2 := by
  cases cond
  · rfl
  · simp only [CPU.brcnd, CPU.decode_relative, CPU.fetch, get_crosspage_penalty,
      if_true, ite_true]
    split <;> norm_num <;> rename_i h <;> rw [Nat.mod_add_mod] at h
    · rw [if_neg h]
    · rw [if_pos (not_ne_iff.mp h)]

/-! ## C10 — controller shift register reads at 0x4016 -/

/-- An access to the controller port: a CPU read of `0x4016`, or a CPU
write of `v` to `0x4016`. -/
inductive JoyOp where
  | jread
  | jwrite (v : Nat)
deriving DecidableEq, Repr

/-- State after `n` consecutive CPU reads of `0x4016`. -/
def busReadIter4016 : Nat → Bus → Bus
  | 0, s => s
  | n + 1, s => busReadIter4016 n (Bus.read s 0x4016).2

/-- The values returned by the reads occurring in a `0x4016` access
sequence. -/
def joyReadOuts : List JoyOp → Bus → List Nat
  | [], _ => []
  | JoyOp.jread :: ops, s =>
    (Bus.read s 0x4016).1 :: joyReadOuts ops (Bus.read s 0x4016).2
  | JoyOp.jwrite v :: ops, s => joyReadOuts ops (Bus.write s 0x4016 v)

/-- `n` reads of `0x4016` shift the controller register right `n` times. -/
theorem busReadIter4016_shift :
    ∀ (n : Nat) (s : Bus),
      (busReadIter4016 n s).input.controller_shift
        = s.input.controller_shift >>> n := by
  intro n
  induction n with
  | zero => intro s; rfl
  | succ n ih =>
    intro s
    show (busReadIter4016 n (Bus.read s 0x4016).2).input.controller_shift = _
    rw [ih]
    show s.input.controller_shift >>> 1 >>> n = _
    rw [← Nat.shiftRight_add]
    rw [Nat.add_comm 1 n]

/-- Once the shift register is zero, any sequence of reads and
bit-0-clear writes at `0x4016` only ever reads back zero. -/
theorem joyReadOuts_all_zero :
    ∀ (ops : List JoyOp) (t : Bus), t.input.controller_shift = 0 →
      (∀ v, JoyOp.jwrite v ∈ ops → v &&& 1 = 0) →
      ∀ r ∈ joyReadOuts ops t, r = 0 := by
  intro ops
  induction ops with
  | nil => intro t _ _ r hr; simp [joyReadOuts] at hr
  | cons op ops ih =>
    intro t ht hw r hr
    match op with
    | JoyOp.jread =>
      rw [joyReadOuts] at hr
      cases hr with
      | head =>
        rw [show (Bus.read t 0x4016).1 = t.input.controller_shift &&& 1 from rfl, ht]
        rfl
      | tail _ hr =>
        refine ih (Bus.read t 0x4016).2 ?_ (fun v hv => hw v (List.mem_cons_of_mem _ hv)) r hr
        rw [show (Bus.read t 0x4016).2.input.controller_shift
            = t.input.controller_shift >>> 1 from rfl, ht]
        rfl
    | JoyOp.jwrite v =>
      rw [joyReadOuts] at hr
      refine ih (Bus.write t 0x4016 v) ?_ (fun u hu => hw u (List.mem_cons_of_mem _ hu)) r hr
      have hv : v &&& 1 = 0 := hw v (List.mem_cons_self _ _)
      show (t.input.write v).controller_shift = 0
      unfold Input.write
      rw [if_neg (by simp [hv])]
      exact ht

/-- C10: a CPU read of `0x4016` returns exactly bit 0 of the controller
shift register (hence a value in `{0,1}`) and shifts the register right by
one; after eight consecutive reads the register is zero, and every further
read — through any interleaving of reads and writes whose bit 0 is clear —
returns 0. -/
theorem controller_port_reads (s : Bus) (hs : s.input.controller_shift < 256) :
    ((Bus.read s 0x4016).1 = s.input.controller_shift &&& 1 ∧
     (Bus.read s 0x4016).1 ≤ 1 ∧
     (Bus.read s 0x4016).2.input.controller_shift
        = s.input.controller_shift >>> 1) ∧
    (busReadIter4016 8 s).input.controller_shift = 0 ∧
    (∀ ops : List JoyOp, (∀ v, JoyOp.jwrite v ∈ ops → v &&& 1 = 0) →
      ∀ r ∈ joyReadOuts ops (busReadIter4016 8 s), r = 0) := by
  have h8 : (busReadIter4016 8 s).input.controller_shift = 0 := by
    rw [busReadIter4016_shift, Nat.shiftRight_eq_div_pow]
    exact Nat.div_eq_of_lt (by norm_num at hs ⊢; omega)
  refine ⟨⟨rfl, ?_, rfl⟩, h8, ?_⟩
  · exact Nat.and_le_right
  · intro ops hw
    exact joyReadOuts_all_zero ops _ h8 hw

/-- Witness for `controller_port_reads` on a bus whose controller shift
register holds `0xAB`. -/
theorem controller_port_reads_witness :
    ({ sampleBus with input := ⟨0, 0xAB⟩ } : Bus).input.controller_shift < 256 ∧
    (((Bus.read { sampleBus with input := ⟨0, 0xAB⟩ } 0x4016).1
        = ({ sampleBus with input := ⟨0, 0xAB⟩ } : Bus).input.controller_shift &&& 1 ∧
      (Bus.read { sampleBus with input := ⟨0, 0xAB⟩ } 0x4016).1 ≤ 1 ∧
      (Bus.read { sampleBus with input := ⟨0, 0xAB⟩ } 0x4016).2.input.controller_shift
        = ({ sampleBus with input := ⟨0, 0xAB⟩ } : Bus).input.controller_shift >>> 1) ∧
     (busReadIter4016 8 { sampleBus with input := ⟨0, 0xAB⟩ }).input.controller_shift = 0 ∧
     (∀ ops : List JoyOp, (∀ v, JoyOp.jwrite v ∈ ops → v &&& 1 = 0) →
       ∀ r ∈ joyReadOuts ops (busReadIter4016 8 { sampleBus with input := ⟨0, 0xAB⟩ }),
         r = 0)) :=
  ⟨by decide, controller_port_reads { sampleBus with input := ⟨0, 0xAB⟩ } (by decide)⟩

end RNES
